import Mathlib

/-!
Verification of the `bosbase` C SDK foreign-function boundary
(`src/bosbase_c.cpp` against `include/bosbase_c.h`).

The boundary wraps an inner C++ client library (`bosbase::BosBase`, not part
of this repository) behind flat C entry points.  We shallowly embed the
boundary layer itself:

* JSON documents (`nlohmann::json` values) become the inductive `Json`.
  The textual JSON parser and serializer are external to this repository
  (the spec places "JSON document parsing/serialization internals" out of
  scope), so a C string argument that carries JSON is embedded by its parse
  outcome (`CJsonText`): null/empty pointer, unparseable non-empty text, or
  text parsing to a concrete `Json` value.
* Nullable C pointers become `Option`; a `char*` out-parameter that may or
  may not be supplied becomes a `Bool` ("was a non-null pointer passed"),
  and what the call wrote through it is returned as an `Option` field of an
  explicit result record.
* The inner client operations are black boxes (they live outside `src/`):
  each modelled entry point takes the inner operation as an oracle function
  from the marshalled arguments to an `InnerOutcome`, and the result record
  stores exactly which arguments were handed to the single inner invocation
  (`invoked = none` means the entry point returned before reaching it).
* Thrown C++ exceptions become the `InnerOutcome` / `Except` constructors:
  `bosbase::ClientResponseError` keeps its payload, any other
  `std::exception` is represented by its `what()` string.
-/

namespace BosbaseC

/-- Dynamically typed JSON document, mirroring the `nlohmann::json` values
that cross the boundary.  Objects are association lists in insertion
order. -/
inductive Json where
  | null : Json
  | bool (b : Bool) : Json
  | num (n : Int) : Json
  | str (s : String) : Json
  | arr (elems : List Json) : Json
  | obj (fields : List (String × Json)) : Json

mutual

/-- Serialization of a document to text, standing in for
`nlohmann::json::dump()` (the real serializer is outside this repository;
only its determinism matters to the claims). -/
def Json.dump : Json → String
  | .null => "null"
  | .bool b => if b then "true" else "false"
  | .num n => toString n
  | .str s => "\"" ++ s ++ "\""
  | .arr elems => "[" ++ Json.dumpElems elems ++ "]"
  | .obj fields => "\x7b" ++ Json.dumpFields fields ++ "\x7d"

/-- Comma-separated serialization of array elements. -/
def Json.dumpElems : List Json → String
  | [] => ""
  | [j] => Json.dump j
  | j :: rest => Json.dump j ++ "," ++ Json.dumpElems rest

/-- Comma-separated serialization of object fields. -/
def Json.dumpFields : List (String × Json) → String
  | [] => ""
  | [(k, v)] => "\"" ++ k ++ "\":" ++ Json.dump v
  | (k, v) :: rest => "\"" ++ k ++ "\":" ++ Json.dump v ++ "," ++ Json.dumpFields rest

end

/-- Test for `is_object()` on a document. -/
def Json.isObject : Json → Bool
  | .obj _ => true
  | _ => false

/-- Field list of a document known to be an object (empty otherwise). -/
def Json.objFields : Json → List (String × Json)
  | .obj fields => fields
  | _ => []

/-- Embedding of a `const char*` parameter that carries JSON text, by its
parse outcome: `omitted` is a null pointer or the empty string, `invalid`
is non-empty text rejected by the JSON parser, `value j` is non-empty text
parsing to `j`. -/
inductive CJsonText where
  | omitted : CJsonText
  | invalid : CJsonText
  | value (j : Json) : CJsonText

/-- Stand-in for the `what()` message of the parse exception thrown by
`nlohmann::json::parse` on invalid text (its concrete wording is internal
to the external JSON library). -/
def json_parse_error_what : String := "json parse error"

/-- `parse_json_or` (bosbase_c.cpp:58-61): null/empty text yields the
fallback document, otherwise the text is parsed and any parser exception
propagates. -/
def parse_json_or : CJsonText → Json → Except String Json
  | .omitted, fallback => .ok fallback
  | .invalid, _ => .error json_parse_error_what
  | .value j, _ => .ok j

/-- `parse_query` (bosbase_c.cpp:63-74): null/empty text yields an empty
bag; parsed non-object text throws "query_json must be an object";
otherwise the object fields become the query bag. -/
def parse_query : CJsonText → Except String (List (String × Json))
  | .omitted => .ok []
  | .invalid => .error json_parse_error_what
  | .value j =>
    if j.isObject then .ok j.objFields
    else .error "query_json must be an object"

/-- Header value coercion (bosbase_c.cpp:83-89): string values pass
through, any other value is serialized to its textual form. -/
def coerceHeader (j : Json) : String :=
  match j with
  | .str s => s
  | _ => j.dump

/-- `parse_headers` (bosbase_c.cpp:76-91): like `parse_query` but values
are coerced to strings and the non-object message names headers_json. -/
def parse_headers : CJsonText → Except String (List (String × String))
  | .omitted => .ok []
  | .invalid => .error json_parse_error_what
  | .value j =>
    if j.isObject then
      .ok (j.objFields.map (fun kv => (kv.1, coerceHeader kv.2)))
    else .error "headers_json must be an object"

/-- A C string returned to the caller, tagged by ownership: `owned` is a
fresh `malloc` copy produced by `dup_string` that the caller must release
with `bosbase_free_string`; `borrowed` is a pointer into storage the
boundary or the inner implementation retains (or a string literal). -/
inductive COutString where
  | owned (s : String) : COutString
  | borrowed (s : String) : COutString
deriving Repr, DecidableEq

/-- True exactly when the returned text is a caller-owned Boundary String
in the sense of the spec (fresh heap allocation, released by the caller). -/
def COutString.isBoundaryString : COutString → Bool
  | .owned _ => true
  | .borrowed _ => false

/-- `dup_string` (bosbase_c.cpp:23-30): heap-allocates a fresh copy of the
bytes.  Allocation failure (malloc returning null) is a memory-exhaustion
path outside this model. -/
def dup_string (s : String) : COutString := .owned s

/-- `dup_json` (bosbase_c.cpp:32-34): serializes and duplicates. -/
def dup_json (j : Json) : COutString := dup_string j.dump

/-- The `bosbase_error` diagnostic struct (bosbase_c.h:14-20).  The three
`char*` fields are `Option String`: `none` is a null pointer. -/
structure bosbase_error where
  status : Int
  is_abort : Bool
  url : Option String
  message : Option String
  response : Option String
deriving Repr, DecidableEq

/-- `make_error(message, status)` (bosbase_c.cpp:36-45), the overload used
for local and generic failures: abort flag cleared, no url, no response.
Every call site passes the default status −1 (the parameter default in the
source); the status is kept explicit here because Lean default argument
values are avoided in this development. -/
def make_error (message : String) (status : Int) : bosbase_error :=
  { status := status, is_abort := false, url := none,
    message := some message, response := none }

/-- The payload of the inner `bosbase::ClientResponseError` exception:
HTTP-style status, abort flag, request URL, and the server response
document. -/
structure ClientResponseError where
  status : Int
  isAbort : Bool
  url : String
  response : Json

/-- `make_error(ex)` (bosbase_c.cpp:47-56), the overload for the transport
exception: real status, abort flag, url, and `ex.response().dump()`
duplicated into both message and response. -/
def make_error_response (ex : ClientResponseError) : bosbase_error :=
  { status := ex.status, is_abort := ex.isAbort, url := some ex.url,
    message := some ex.response.dump, response := some ex.response.dump }

/-- Outcome of invoking one inner operation: normal return, a thrown
`bosbase::ClientResponseError` (caught first, it derives from
`std::exception`), or any other thrown `std::exception` represented by its
`what()` string. -/
inductive InnerOutcome (α : Type) where
  | ok (value : α) : InnerOutcome α
  | errResponse (ex : ClientResponseError) : InnerOutcome α
  | errGeneric (what : String) : InnerOutcome α

/-- Observable result of `wrap_json`: the returned status plus what was
written through each out-parameter (`none` when nothing was written,
either because the branch does not write or because the caller passed a
null pointer). -/
structure WrapJsonResult where
  ret : Int
  written_json : Option COutString
  written_error : Option bosbase_error
deriving Repr

/-- `wrap_json` (bosbase_c.cpp:110-124): runs the inner operation; on
normal return writes the serialized result through `out_json` when that
pointer is non-null and returns 0; on a caught exception writes the
converted error through `out_error` when that pointer is non-null and
returns −1.  `out_json` / `out_error` are `true` when the caller passed a
non-null pointer. -/
def wrap_json (fn : InnerOutcome Json) (out_json : Bool) (out_error : Bool) :
    WrapJsonResult :=
  match fn with
  | .ok result =>
    { ret := 0,
      written_json := if out_json then some (dup_json result) else none,
      written_error := none }
  | .errResponse ex =>
    { ret := -1, written_json := none,
      written_error := if out_error then some (make_error_response ex) else none }
  | .errGeneric what =>
    { ret := -1, written_json := none,
      written_error := if out_error then some (make_error what (-1)) else none }

/-- Observable result of `wrap_void`. -/
structure WrapVoidResult where
  ret : Int
  written_error : Option bosbase_error
deriving Repr

/-- `wrap_void` (bosbase_c.cpp:126-137): like `wrap_json` without the
value out-parameter. -/
def wrap_void (fn : InnerOutcome Unit) (out_error : Bool) : WrapVoidResult :=
  match fn with
  | .ok _ => { ret := 0, written_error := none }
  | .errResponse ex =>
    { ret := -1,
      written_error := if out_error then some (make_error_response ex) else none }
  | .errGeneric what =>
    { ret := -1,
      written_error := if out_error then some (make_error what (-1)) else none }

/-- State of the inner `bosbase::BosBase` client that the boundary reads
directly: the auth store token and record (bosbase_c.cpp:197-205).  All
other inner state is behind the per-call oracles. -/
structure BosBaseImpl where
  authToken : String
  authRecord : Json

/-- The `bosbase_client` handle struct (bosbase_c.cpp:145-147): it owns a
`unique_ptr` to the inner client, which may be null.  A null handle
pointer itself is `Option bosbase_client` at each entry point. -/
structure bosbase_client where
  impl : Option BosBaseImpl

/-- Observable result of a status-returning entry point: the status code,
the arguments handed to the single inner operation (`none` when the entry
point returned before invoking it), and what was written through the two
out-parameters. -/
structure CallResult (ι : Type) where
  ret : Int
  invoked : Option ι
  written_json : Option COutString
  written_error : Option bosbase_error

/-- Early return on a null handle or null inner pointer: status −1,
nothing parsed, nothing invoked, nothing written. -/
def no_write (ι : Type) : CallResult ι :=
  { ret := -1, invoked := none, written_json := none, written_error := none }

/-- The local catch-all branch `catch (const std::exception& ex)` of an
entry point: status −1, inner operation never reached, and
`make_error(ex.what())` written through `out_error` when that pointer is
non-null. -/
def local_fail (ι : Type) (out_error : Bool) (what : String) : CallResult ι :=
  { ret := -1, invoked := none, written_json := none,
    written_error := if out_error then some (make_error what (-1)) else none }

/-- Lifts a `wrap_json` result into a `CallResult` that did reach the
inner operation with arguments `args`. -/
def with_invoked (ι : Type) (args : ι) (w : WrapJsonResult) : CallResult ι :=
  { ret := w.ret, invoked := some args, written_json := w.written_json,
    written_error := w.written_error }

/-- The `bosbase_file_attachment` C struct (bosbase_c.h:22-28) with its
nullable pointer fields. -/
structure bosbase_file_attachment where
  field : Option String
  filename : Option String
  content_type : Option String
  data : Option (List Nat)

/-- The inner `bosbase::FileAttachment` value after marshalling. -/
structure FileAttachment where
  field : String
  filename : String
  contentType : String
  data : List Nat

/-- `convert_files` (bosbase_c.cpp:93-108): a null array pointer or zero
length yields no attachments; otherwise each descriptor is copied, null
string fields becoming empty and a null/empty data buffer becoming no
bytes.  The `files : Option (List _)` argument models the
(pointer, length) pair, `none` being a null pointer. -/
def convert_files (files : Option (List bosbase_file_attachment)) :
    List FileAttachment :=
  match files with
  | none => []
  | some fs =>
    fs.map (fun f =>
      { field := f.field.getD "", filename := f.filename.getD "",
        contentType := f.content_type.getD "",
        data := match f.data with | none => [] | some d => d })

/-- Optional-string marshalling used for filter/sort/expand/fields and
similar parameters: `p && *p ? optional(p) : nullopt` — null or empty
means absent. -/
def opt_str (s : Option String) : Option String :=
  match s with
  | none => none
  | some v => if v = "" then none else some v

/-- Overwrite-or-insert on an association-list bag, modelling
`query["k"] = v` on the `std::map` query bag. -/
def mapSet (m : List (String × Json)) (k : String) (v : Json) :
    List (String × Json) :=
  m.filter (fun kv => kv.1 != k) ++ [(k, v)]

/-- The inner `bosbase::SendOptions` value as filled in by the boundary. -/
structure SendOptions where
  method : String
  body : Json
  query : List (String × Json)
  headers : List (String × String)
  timeoutMs : Option Int
  files : List FileAttachment

/-- `bosbase_send` (bosbase_c.cpp:235-266).  Null-handle check first; the
method defaults to "GET" on a null or empty string; body, query and
headers are parsed inside the try block (a parse exception becomes a local
error before the inner call); on success the single inner
`client->impl->send(path, opts)` is reached — `inner` is its oracle and
the invoked path/options are recorded. -/
def bosbase_send (client : Option bosbase_client) (path : Option String)
    (method : Option String)
    (body_json query_json headers_json : CJsonText)
    (timeout_ms : Int) (files : Option (List bosbase_file_attachment))
    (out_json out_error : Bool)
    (inner : String × SendOptions → InnerOutcome Json) :
    CallResult (String × SendOptions) :=
  match client with
  | none => no_write _
  | some c =>
    match c.impl with
    | none => no_write _
    | some _ =>
      let methodVal :=
        match method with
        | none => "GET"
        | some m => if m = "" then "GET" else m
      match parse_json_or body_json (Json.obj []) with
      | .error what => local_fail _ out_error what
      | .ok body =>
        match parse_query query_json with
        | .error what => local_fail _ out_error what
        | .ok query =>
          match parse_headers headers_json with
          | .error what => local_fail _ out_error what
          | .ok headers =>
            let opts : SendOptions :=
              { method := methodVal, body := body, query := query,
                headers := headers,
                timeoutMs := if timeout_ms > 0 then some timeout_ms else none,
                files := convert_files files }
            let pathVal := match path with | none => "/" | some p => p
            with_invoked _ (pathVal, opts)
              (wrap_json (inner (pathVal, opts)) out_json out_error)

/-- Arguments of the inner `CollectionService::getList` call made by
`bosbase_collection_get_list` (the `false` literal is the skipTotal
argument at bosbase_c.cpp:291). -/
structure GetListArgs where
  collection : String
  page : Int
  perPage : Int
  skipTotal : Bool
  query : List (String × Json)
  headers : List (String × String)
  filter : Option String
  sort : Option String
  expand : Option String
  fields : Option String

/-- `bosbase_collection_get_list` (bosbase_c.cpp:268-297): null-handle
check, then query/header parsing and optional-string marshalling inside
the try block, then the single inner `svc.getList(page, per_page, false,
query, headers, f, s, e, fld)` call through `wrap_json`. -/
def bosbase_collection_get_list (client : Option bosbase_client)
    (collection : Option String) (page per_page : Int)
    (filter sort expand fields : Option String)
    (query_json headers_json : CJsonText) (out_json out_error : Bool)
    (inner : GetListArgs → InnerOutcome Json) : CallResult GetListArgs :=
  match client with
  | none => no_write _
  | some c =>
    match c.impl with
    | none => no_write _
    | some _ =>
      match parse_query query_json with
      | .error what => local_fail _ out_error what
      | .ok query =>
        match parse_headers headers_json with
        | .error what => local_fail _ out_error what
        | .ok headers =>
          let args : GetListArgs :=
            { collection := collection.getD "", page := page,
              perPage := per_page, skipTotal := false, query := query,
              headers := headers, filter := opt_str filter,
              sort := opt_str sort, expand := opt_str expand,
              fields := opt_str fields }
          with_invoked _ args (wrap_json (inner args) out_json out_error)

/-- TTL marshalling shared by `bosbase_cache_set_entry`
(bosbase_c.cpp:1149-1150) and `bosbase_cache_renew_entry`
(bosbase_c.cpp:1196-1197): `std::optional<int> ttl; if (ttl_seconds >= 0)
ttl = ttl_seconds;`. -/
def cache_ttl_marshal (ttl_seconds : Int) : Option Int :=
  if 0 ≤ ttl_seconds then some ttl_seconds else none

/-- Arguments of the inner `caches->setEntry` call. -/
structure SetEntryArgs where
  cache : String
  key : String
  value : Json
  ttl : Option Int
  body : Json
  query : List (String × Json)
  headers : List (String × String)

/-- `bosbase_cache_set_entry` (bosbase_c.cpp:1132-1158): null-handle
check, parsing inside the try block, TTL marshalling, then the single
inner `caches->setEntry(cache, key, value, ttl, body, query, headers)`
call through `wrap_json`. -/
def bosbase_cache_set_entry (client : Option bosbase_client)
    (cache key : Option String) (value_json : CJsonText) (ttl_seconds : Int)
    (body_json query_json headers_json : CJsonText)
    (out_json out_error : Bool)
    (inner : SetEntryArgs → InnerOutcome Json) : CallResult SetEntryArgs :=
  match client with
  | none => no_write _
  | some c =>
    match c.impl with
    | none => no_write _
    | some _ =>
      match parse_json_or value_json (Json.obj []) with
      | .error what => local_fail _ out_error what
      | .ok value =>
        match parse_json_or body_json (Json.obj []) with
        | .error what => local_fail _ out_error what
        | .ok body =>
          match parse_query query_json with
          | .error what => local_fail _ out_error what
          | .ok query =>
            match parse_headers headers_json with
            | .error what => local_fail _ out_error what
            | .ok headers =>
              let args : SetEntryArgs :=
                { cache := cache.getD "", key := key.getD "",
                  value := value, ttl := cache_ttl_marshal ttl_seconds,
                  body := body, query := query, headers := headers }
              with_invoked _ args (wrap_json (inner args) out_json out_error)

/-- Arguments of the inner `caches->renewEntry` call. -/
structure RenewEntryArgs where
  cache : String
  key : String
  ttl : Option Int
  body : Json
  query : List (String × Json)
  headers : List (String × String)

/-- `bosbase_cache_renew_entry` (bosbase_c.cpp:1181-1205): same shape as
`bosbase_cache_set_entry` without the value parameter. -/
def bosbase_cache_renew_entry (client : Option bosbase_client)
    (cache key : Option String) (ttl_seconds : Int)
    (body_json query_json headers_json : CJsonText)
    (out_json out_error : Bool)
    (inner : RenewEntryArgs → InnerOutcome Json) : CallResult RenewEntryArgs :=
  match client with
  | none => no_write _
  | some c =>
    match c.impl with
    | none => no_write _
    | some _ =>
      match parse_json_or body_json (Json.obj []) with
      | .error what => local_fail _ out_error what
      | .ok body =>
        match parse_query query_json with
        | .error what => local_fail _ out_error what
        | .ok query =>
          match parse_headers headers_json with
          | .error what => local_fail _ out_error what
          | .ok headers =>
            let args : RenewEntryArgs :=
              { cache := cache.getD "", key := key.getD "",
                ttl := cache_ttl_marshal ttl_seconds, body := body,
                query := query, headers := headers }
            with_invoked _ args (wrap_json (inner args) out_json out_error)

/-- Modelled from the spec: the inner `CacheService` setEntry/renewEntry
bodies are not under src/; per the spec TTL convention they place the
optional TTL into the outbound request, omitting the field when the
optional is absent and sending the literal value (including 0) when
present. -/
def ttl_outbound_field (ttl : Option Int) : List (String × Json) :=
  match ttl with
  | none => []
  | some t => [("ttl", Json.num t)]

/-- Paging-key insertion shared by `bosbase_vector_list`
(bosbase_c.cpp:990-991) and `bosbase_llm_list` (bosbase_c.cpp:1849-1850):
`if (page > 0) query["page"] = page; if (per_page > 0) query["perPage"] =
per_page;`. -/
def list_page_query (page per_page : Int) (query : List (String × Json)) :
    List (String × Json) :=
  let q1 := if page > 0 then mapSet query "page" (Json.num page) else query
  if per_page > 0 then mapSet q1 "perPage" (Json.num per_page) else q1

/-- Arguments of the inner `send` call made by the vector / llm-document
list entry points: the addressed collection (the request path is composed
from it with the inner `encodePathSegment`, outside src/) plus the
outbound query and header bags. -/
structure ListSendArgs where
  collection : String
  query : List (String × Json)
  headers : List (String × String)

/-- `bosbase_vector_list` (bosbase_c.cpp:977-1002): null-handle check,
parsing inside the try block, paging keys added for positive values only,
then the single inner `send("/api/vectors/" + ...)` call through
`wrap_json`. -/
def bosbase_vector_list (client : Option bosbase_client)
    (collection : Option String) (page per_page : Int)
    (query_json headers_json : CJsonText) (out_json out_error : Bool)
    (inner : ListSendArgs → InnerOutcome Json) : CallResult ListSendArgs :=
  match client with
  | none => no_write _
  | some c =>
    match c.impl with
    | none => no_write _
    | some _ =>
      match parse_query query_json with
      | .error what => local_fail _ out_error what
      | .ok query =>
        match parse_headers headers_json with
        | .error what => local_fail _ out_error what
        | .ok headers =>
          let args : ListSendArgs :=
            { collection := collection.getD "",
              query := list_page_query page per_page query,
              headers := headers }
          with_invoked _ args (wrap_json (inner args) out_json out_error)

/-- `bosbase_llm_list` (bosbase_c.cpp:1836-1861): identical marshalling to
`bosbase_vector_list` with the llm-documents request path. -/
def bosbase_llm_list (client : Option bosbase_client)
    (collection : Option String) (page per_page : Int)
    (query_json headers_json : CJsonText) (out_json out_error : Bool)
    (inner : ListSendArgs → InnerOutcome Json) : CallResult ListSendArgs :=
  match client with
  | none => no_write _
  | some c =>
    match c.impl with
    | none => no_write _
    | some _ =>
      match parse_query query_json with
      | .error what => local_fail _ out_error what
      | .ok query =>
        match parse_headers headers_json with
        | .error what => local_fail _ out_error what
        | .ok headers =>
          let args : ListSendArgs :=
            { collection := collection.getD "",
              query := list_page_query page per_page query,
              headers := headers }
          with_invoked _ args (wrap_json (inner args) out_json out_error)

/-- Arguments of the inner `logs->getList(page, per_page, query, headers)`
call. -/
structure LogsListArgs where
  page : Int
  perPage : Int
  query : List (String × Json)
  headers : List (String × String)

/-- `bosbase_logs_get_list` (bosbase_c.cpp:1385-1404): the page and
per_page integers are passed through unchanged to the inner
`logs->getList`. -/
def bosbase_logs_get_list (client : Option bosbase_client)
    (page per_page : Int) (query_json headers_json : CJsonText)
    (out_json out_error : Bool)
    (inner : LogsListArgs → InnerOutcome Json) : CallResult LogsListArgs :=
  match client with
  | none => no_write _
  | some c =>
    match c.impl with
    | none => no_write _
    | some _ =>
      match parse_query query_json with
      | .error what => local_fail _ out_error what
      | .ok query =>
        match parse_headers headers_json with
        | .error what => local_fail _ out_error what
        | .ok headers =>
          let args : LogsListArgs :=
            { page := page, perPage := per_page, query := query,
              headers := headers }
          with_invoked _ args (wrap_json (inner args) out_json out_error)

/-- Modelled from the spec: the bodies of the inner
`CollectionService::getList` and `LogService::getList` are not under src/;
per the spec paging convention they marshal the page / perPage integers
into the outbound query, omitting a value of 0 or less and sending a
positive value literally. -/
def getList_outbound_query (page perPage : Int)
    (query : List (String × Json)) : List (String × Json) :=
  let q1 := if page > 0 then mapSet query "page" (Json.num page) else query
  if perPage > 0 then mapSet q1 "perPage" (Json.num perPage) else q1

/-- The `bosbase_batch` handle struct (bosbase_c.cpp:153-156): a non-owning
pointer to the owning client and a `unique_ptr` to the inner
`bosbase::BatchService` accumulator (a black box outside src/, modelled as
opaque presence). -/
structure bosbase_batch where
  owner : Option bosbase_client
  impl : Option Unit

/-- Arguments buffered by the inner
`batch->impl->collection(c).create(body, query, attachments, e, fld)`
call. -/
structure BatchCreateArgs where
  collection : String
  body : Json
  query : List (String × Json)
  files : List FileAttachment
  expand : Option String
  fields : Option String

/-- `bosbase_batch_collection_create` (bosbase_c.cpp:1890-1915):
null-batch / null-impl check first, then parsing inside the try block, a
parse exception becoming a local error; on success the operation is
appended to the inner accumulator (recorded in `invoked`, no I/O, return
0).  There is no value out-parameter. -/
def bosbase_batch_collection_create (batch : Option bosbase_batch)
    (collection : Option String) (body_json : CJsonText)
    (files : Option (List bosbase_file_attachment))
    (expand fields : Option String) (query_json : CJsonText)
    (out_error : Bool) : CallResult BatchCreateArgs :=
  match batch with
  | none => no_write _
  | some b =>
    match b.impl with
    | none => no_write _
    | some _ =>
      match parse_json_or body_json (Json.obj []) with
      | .error what => local_fail _ out_error what
      | .ok body =>
        match parse_query query_json with
        | .error what => local_fail _ out_error what
        | .ok query =>
          let args : BatchCreateArgs :=
            { collection := collection.getD "", body := body, query := query,
              files := convert_files files, expand := opt_str expand,
              fields := opt_str fields }
          { ret := 0, invoked := some args, written_json := none,
            written_error := none }

/-- Arguments of the inner `batch->impl->send(body, query, headers)`
commit call. -/
structure BatchSendArgs where
  body : Json
  query : List (String × Json)
  headers : List (String × String)

/-- `bosbase_batch_send` (bosbase_c.cpp:1993-2014): null-batch / null-impl
check first, parsing inside the try block, then the single inner commit
call through `wrap_json`. -/
def bosbase_batch_send (batch : Option bosbase_batch)
    (body_json query_json headers_json : CJsonText)
    (out_json out_error : Bool)
    (inner : BatchSendArgs → InnerOutcome Json) : CallResult BatchSendArgs :=
  match batch with
  | none => no_write _
  | some b =>
    match b.impl with
    | none => no_write _
    | some _ =>
      match parse_json_or body_json (Json.obj []) with
      | .error what => local_fail _ out_error what
      | .ok body =>
        match parse_query query_json with
        | .error what => local_fail _ out_error what
        | .ok query =>
          match parse_headers headers_json with
          | .error what => local_fail _ out_error what
          | .ok headers =>
            let args : BatchSendArgs :=
              { body := body, query := query, headers := headers }
            with_invoked _ args (wrap_json (inner args) out_json out_error)

/-- The `SubscriptionHolder` struct (bosbase_c.cpp:139-141): the stored
`std::function<void()>` cancellation capability, `none` modelling an empty
function (for which `if (sub->holder->cancel)` is false).  A `Nat` token
identifies which capability it is. -/
structure SubscriptionHolder where
  cancel : Option Nat

/-- The `bosbase_subscription` handle struct (bosbase_c.cpp:149-151): a
`shared_ptr` to the holder, which may in principle be null. -/
structure bosbase_subscription where
  holder : Option SubscriptionHolder

/-- Handle construction shared by `bosbase_collection_subscribe`
(bosbase_c.cpp:604-613) and `bosbase_pubsub_subscribe`
(bosbase_c.cpp:2050-2059): the holder is always allocated with
`make_shared` and its cancel slot is assigned the inner subscribe result
before the handle is returned. -/
def mk_subscription (cancel : Option Nat) : bosbase_subscription :=
  { holder := some { cancel := cancel } }

/-- Observable effect of `bosbase_subscription_cancel`: which stored
cancellation capability was invoked (if any) and whether the handle struct
itself was deallocated. -/
structure CancelResult where
  invoked : Option Nat
  freed : Bool
deriving Repr, DecidableEq

/-- `bosbase_subscription_cancel` (bosbase_c.cpp:622-628): a null handle
or null holder returns without doing anything; otherwise the stored
cancellation function is invoked when present and then the handle struct
is deleted.  The header declares no other release operation for
subscription handles. -/
def bosbase_subscription_cancel (sub : Option bosbase_subscription) :
    CancelResult :=
  match sub with
  | none => { invoked := none, freed := false }
  | some s =>
    match s.holder with
    | none => { invoked := none, freed := false }
    | some h => { invoked := h.cancel, freed := true }

/-- Heap cells of one `bosbase_error` allocation at the pointer level:
`self` is the struct cell from `malloc(sizeof(bosbase_error))` and the
optional fields are the `dup_string` cells (each `none` when the field
holds a null pointer).  Cells are abstract addresses (`Nat`). -/
structure ErrorCells where
  self : Nat
  url : Option Nat
  message : Option Nat
  response : Option Nat

/-- `bosbase_free_string` (bosbase_c.cpp:158-160) at the pointer level:
`std::free` on a null pointer releases nothing, on a non-null pointer it
releases exactly that cell. -/
def bosbase_free_string (str : Option Nat) : List Nat :=
  match str with
  | none => []
  | some p => [p]

/-- `bosbase_free_error` (bosbase_c.cpp:162-168) at the pointer level: a
null error pointer returns immediately; otherwise the url, message and
response cells are released through `bosbase_free_string` and then the
struct cell itself through `std::free`. -/
def bosbase_free_error (err : Option ErrorCells) : List Nat :=
  match err with
  | none => []
  | some e =>
    bosbase_free_string e.url ++ bosbase_free_string e.message ++
      bosbase_free_string e.response ++ [e.self]

/-- All heap cells belonging to one error allocation. -/
def ErrorCells.cells (e : ErrorCells) : List Nat :=
  e.url.toList ++ e.message.toList ++ e.response.toList ++ [e.self]

/-- `bosbase_auth_token` (bosbase_c.cpp:197-200): a null handle or null
inner pointer returns the string literal "", otherwise the call returns
`client->impl->authStore()->token().c_str()` — a pointer into the auth
string storage of the auth store, not a `dup_string` copy.  Both outcomes are
borrowed, never caller-owned. -/
def bosbase_auth_token (client : Option bosbase_client) : COutString :=
  match client with
  | none => .borrowed ""
  | some c =>
    match c.impl with
    | none => .borrowed ""
    | some impl => .borrowed impl.authToken

/-- `bosbase_auth_record` (bosbase_c.cpp:202-205): null handle or null
inner pointer returns a null `char*`; otherwise the auth record is
serialized through `dup_json` into a fresh caller-owned allocation. -/
def bosbase_auth_record (client : Option bosbase_client) :
    Option COutString :=
  match client with
  | none => none
  | some c =>
    match c.impl with
    | none => none
    | some impl => some (dup_json impl.authRecord)

/-- A JSON-carrying text parameter that the object-requiring parsers
reject: non-empty unparseable text, or text parsing to a non-object top
level. -/
def badObjText : CJsonText → Bool
  | .omitted => false
  | .invalid => true
  | .value j => !j.isObject

theorem parse_query_of_bad {t : CJsonText} (h : badObjText t = true) :
    ∃ w, parse_query t = .error w := by
  cases t with
  | omitted => simp [badObjText] at h
  | invalid => exact ⟨json_parse_error_what, rfl⟩
  | value j =>
    simp [badObjText] at h
    exact ⟨"query_json must be an object", by simp [parse_query, h]⟩

theorem parse_headers_of_bad {t : CJsonText} (h : badObjText t = true) :
    ∃ w, parse_headers t = .error w := by
  cases t with
  | omitted => simp [badObjText] at h
  | invalid => exact ⟨json_parse_error_what, rfl⟩
  | value j =>
    simp [badObjText] at h
    exact ⟨"headers_json must be an object", by simp [parse_headers, h]⟩

theorem bosbase_free_string_toList (p : Option Nat) :
    bosbase_free_string p = p.toList := by
  cases p <;> rfl

/-- C1: for every value-returning entry point dispatched through the
common wrappers, the success path (return 0) never writes the error
out-parameter and the failure path (return −1, the only non-zero status)
never writes the value out-parameter; a null error out-parameter on a
failing call is legal — the wrapper still returns (total function) and the
Error Value is simply not delivered. -/
theorem C1_wrapper_frame_conditions (fnj : InnerOutcome Json)
    (fnv : InnerOutcome Unit) (oj oe : Bool) :
    ((wrap_json fnj oj oe).ret = 0 ∧ (wrap_json fnj oj oe).written_error = none ∨
      (wrap_json fnj oj oe).ret = -1 ∧ (wrap_json fnj oj oe).written_json = none) ∧
    (wrap_json fnj oj false).written_error = none ∧
    ((wrap_void fnv oe).ret = 0 ∧ (wrap_void fnv oe).written_error = none ∨
      (wrap_void fnv oe).ret = -1) ∧
    (wrap_void fnv false).written_error = none := by
  cases fnj <;> cases fnv <;> simp [wrap_json, wrap_void]

/-- C3: when an entry point fails because the inner transport raised
`ClientResponseError`, the Error Value delivered through the wrappers
carries the real status code, the abort flag, the request URL, and the
serialized server response duplicated into both the message and response
fields (the two fields are the identical serialized document). -/
theorem C3_transport_error_payload (ex : ClientResponseError) (oj : Bool) :
    (wrap_json (.errResponse ex) oj true).written_error =
      some (make_error_response ex) ∧
    (wrap_void (.errResponse ex) true).written_error =
      some (make_error_response ex) ∧
    (make_error_response ex).status = ex.status ∧
    (make_error_response ex).is_abort = ex.isAbort ∧
    (make_error_response ex).url = some ex.url ∧
    (make_error_response ex).message = some ex.response.dump ∧
    (make_error_response ex).response = some ex.response.dump ∧
    (make_error_response ex).message = (make_error_response ex).response := by
  exact ⟨rfl, rfl, rfl, rfl, rfl, rfl, rfl, rfl⟩

/-- C9: `bosbase_subscription_cancel` is the only
release operation: on a null pointer it is a no-op (nothing invoked,
nothing freed); on a handle as built by the two subscribe entry points it
invokes the stored cancellation function when one is present and
deallocates the handle struct. -/
theorem C9_subscription_cancel_is_destructor (c : Option Nat) :
    bosbase_subscription_cancel none = { invoked := none, freed := false } ∧
    bosbase_subscription_cancel (some (mk_subscription c)) =
      { invoked := c, freed := true } := by
  exact ⟨rfl, rfl⟩

/-- C5: every modelled status-returning entry point called with a null
handle pointer returns the failure status −1 without parsing any
parameter or invoking any inner operation (the parameters below are
arbitrary, including unparseable texts, yet nothing is written and
nothing is invoked). -/
theorem C5_null_handle_fails_first (path method : Option String)
    (bj qj hj vj : CJsonText) (timeout_ms ttl page per_page : Int)
    (files : Option (List bosbase_file_attachment))
    (collection cache key filter sort expand fields : Option String)
    (oj oe : Bool)
    (innerS : String × SendOptions → InnerOutcome Json)
    (innerG : GetListArgs → InnerOutcome Json)
    (innerC : SetEntryArgs → InnerOutcome Json)
    (innerR : RenewEntryArgs → InnerOutcome Json)
    (innerV innerL : ListSendArgs → InnerOutcome Json)
    (innerLog : LogsListArgs → InnerOutcome Json)
    (innerB : BatchSendArgs → InnerOutcome Json) :
    bosbase_send none path method bj qj hj timeout_ms files oj oe innerS =
      no_write _ ∧
    bosbase_collection_get_list none collection page per_page filter sort
      expand fields qj hj oj oe innerG = no_write _ ∧
    bosbase_cache_set_entry none cache key vj ttl bj qj hj oj oe innerC =
      no_write _ ∧
    bosbase_cache_renew_entry none cache key ttl bj qj hj oj oe innerR =
      no_write _ ∧
    bosbase_vector_list none collection page per_page qj hj oj oe innerV =
      no_write _ ∧
    bosbase_llm_list none collection page per_page qj hj oj oe innerL =
      no_write _ ∧
    bosbase_logs_get_list none page per_page qj hj oj oe innerLog =
      no_write _ ∧
    bosbase_batch_collection_create none collection bj files expand fields qj
      oe = no_write _ ∧
    bosbase_batch_send none bj qj hj oj oe innerB = no_write _ ∧
    (no_write BatchSendArgs).ret = -1 ∧
    (no_write BatchSendArgs).invoked = none := by
  exact ⟨rfl, rfl, rfl, rfl, rfl, rfl, rfl, rfl, rfl, rfl, rfl⟩

/-- C10: when a status-returning entry point fails because the handle
pointer is null or the inner implementation pointer of the handle is null, it
returns −1 and writes neither the value out-parameter nor the error
out-parameter, even though a non-null error out-parameter (`true` below)
was supplied. -/
theorem C10_null_handle_no_writes (owner : Option bosbase_client)
    (path method : Option String) (bj qj hj : CJsonText) (timeout_ms : Int)
    (files : Option (List bosbase_file_attachment))
    (collection filter sort expand fields : Option String)
    (page per_page : Int)
    (innerS : String × SendOptions → InnerOutcome Json)
    (innerG : GetListArgs → InnerOutcome Json)
    (innerB : BatchSendArgs → InnerOutcome Json) :
    (bosbase_send none path method bj qj hj timeout_ms files true true
        innerS).ret = -1 ∧
    (bosbase_send none path method bj qj hj timeout_ms files true true
        innerS).written_json = none ∧
    (bosbase_send none path method bj qj hj timeout_ms files true true
        innerS).written_error = none ∧
    (bosbase_send (some { impl := none }) path method bj qj hj timeout_ms
        files true true innerS).ret = -1 ∧
    (bosbase_send (some { impl := none }) path method bj qj hj timeout_ms
        files true true innerS).written_json = none ∧
    (bosbase_send (some { impl := none }) path method bj qj hj timeout_ms
        files true true innerS).written_error = none ∧
    (bosbase_collection_get_list none collection page per_page filter sort
        expand fields qj hj true true innerG).ret = -1 ∧
    (bosbase_collection_get_list none collection page per_page filter sort
        expand fields qj hj true true innerG).written_json = none ∧
    (bosbase_collection_get_list none collection page per_page filter sort
        expand fields qj hj true true innerG).written_error = none ∧
    (bosbase_collection_get_list (some { impl := none }) collection page
        per_page filter sort expand fields qj hj true true innerG).ret = -1 ∧
    (bosbase_collection_get_list (some { impl := none }) collection page
        per_page filter sort expand fields qj hj true true
        innerG).written_json = none ∧
    (bosbase_collection_get_list (some { impl := none }) collection page
        per_page filter sort expand fields qj hj true true
        innerG).written_error = none ∧
    (bosbase_batch_send none bj qj hj true true innerB).ret = -1 ∧
    (bosbase_batch_send none bj qj hj true true innerB).written_json = none ∧
    (bosbase_batch_send none bj qj hj true true innerB).written_error = none ∧
    (bosbase_batch_send (some { owner := owner, impl := none }) bj qj hj true
        true innerB).ret = -1 ∧
    (bosbase_batch_send (some { owner := owner, impl := none }) bj qj hj true
        true innerB).written_json = none ∧
    (bosbase_batch_send (some { owner := owner, impl := none }) bj qj hj true
        true innerB).written_error = none := by
  exact ⟨rfl, rfl, rfl, rfl, rfl, rfl, rfl, rfl, rfl, rfl, rfl, rfl, rfl,
    rfl, rfl, rfl, rfl, rfl⟩

/-- C6: the release operations are null-tolerant — `bosbase_free_string`
on a null pointer and `bosbase_free_error` on a null pointer release
nothing — and `bosbase_free_error` on a non-null Error Value releases
exactly the url, message and response cells that are present plus the
struct cell itself, each exactly once (the cells of one allocation are
pairwise distinct heap addresses, the hypothesis). -/
theorem C6_release_operations_null_tolerant (e : ErrorCells)
    (h : e.cells.Nodup) :
    bosbase_free_string none = [] ∧
    bosbase_free_error none = [] ∧
    bosbase_free_error (some e) = e.cells ∧
    ∀ p ∈ e.cells, (bosbase_free_error (some e)).count p = 1 := by
  have hfe : bosbase_free_error (some e) = e.cells := by
    simp [bosbase_free_error, ErrorCells.cells, bosbase_free_string_toList]
  refine ⟨rfl, rfl, hfe, ?_⟩
  intro p hp
  rw [hfe]
  exact List.count_eq_one_of_mem h hp

/-- Witness for C6 at a concrete error allocation whose four cells are the
distinct addresses 0, 1, 2, 3. -/
theorem C6_release_operations_null_tolerant_witness :
    (ErrorCells.cells { self := 0, url := some 1, message := some 2,
                        response := some 3 }).Nodup ∧
    (bosbase_free_string none = [] ∧
     bosbase_free_error none = [] ∧
     bosbase_free_error
         (some { self := 0, url := some 1, message := some 2,
                 response := some 3 }) =
       ErrorCells.cells { self := 0, url := some 1, message := some 2,
                          response := some 3 } ∧
     ∀ p ∈ ErrorCells.cells { self := 0, url := some 1, message := some 2,
                              response := some 3 },
       (bosbase_free_error
           (some { self := 0, url := some 1, message := some 2,
                   response := some 3 })).count p = 1) := by
  refine ⟨by decide, ?_⟩
  exact C6_release_operations_null_tolerant
    { self := 0, url := some 1, message := some 2, response := some 3 }
    (by decide)

/-- C7: for `bosbase_cache_set_entry` and `bosbase_cache_renew_entry`, a
negative ttl_seconds marshals to the absent optional TTL — whose outbound
request then carries no ttl field — while any ttl_seconds ≥ 0, including
0, marshals to that literal value handed to the inner operation and sent
in the outbound request. -/
theorem C7_ttl_convention (impl : BosBaseImpl) (cache key : Option String)
    (ttl : Int) (oj oe : Bool) (innerS : SetEntryArgs → InnerOutcome Json)
    (innerR : RenewEntryArgs → InnerOutcome Json) :
    (bosbase_cache_set_entry (some { impl := some impl }) cache key .omitted
        ttl .omitted .omitted .omitted oj oe innerS).invoked =
      some { cache := cache.getD "", key := key.getD "",
             value := Json.obj [], ttl := cache_ttl_marshal ttl,
             body := Json.obj [], query := [], headers := [] } ∧
    (bosbase_cache_renew_entry (some { impl := some impl }) cache key ttl
        .omitted .omitted .omitted oj oe innerR).invoked =
      some { cache := cache.getD "", key := key.getD "",
             ttl := cache_ttl_marshal ttl, body := Json.obj [], query := [],
             headers := [] } ∧
    (ttl < 0 → cache_ttl_marshal ttl = none ∧
      (ttl_outbound_field (cache_ttl_marshal ttl)).lookup "ttl" = none) ∧
    (0 ≤ ttl → cache_ttl_marshal ttl = some ttl ∧
      (ttl_outbound_field (cache_ttl_marshal ttl)).lookup "ttl" =
        some (Json.num ttl)) := by
  refine ⟨rfl, rfl, ?_, ?_⟩
  · intro hneg
    have hm : cache_ttl_marshal ttl = none := by
      simp [cache_ttl_marshal]
      omega
    exact ⟨hm, by simp [hm, ttl_outbound_field]⟩
  · intro hpos
    have hm : cache_ttl_marshal ttl = some ttl := by
      simp [cache_ttl_marshal, hpos]
    refine ⟨hm, ?_⟩
    simp [hm, ttl_outbound_field, List.lookup]

/-- Witness for C7 at ttl_seconds = 0, the "literal 0 is sent" edge of the
convention. -/
theorem C7_ttl_convention_witness :
    (bosbase_cache_set_entry
        (some { impl := some { authToken := "", authRecord := Json.null } })
        none none .omitted 0 .omitted .omitted .omitted true true
        (fun _ => .ok Json.null)).invoked =
      some { cache := "", key := "", value := Json.obj [],
             ttl := cache_ttl_marshal 0, body := Json.obj [], query := [],
             headers := [] } ∧
    (bosbase_cache_renew_entry
        (some { impl := some { authToken := "", authRecord := Json.null } })
        none none 0 .omitted .omitted .omitted true true
        (fun _ => .ok Json.null)).invoked =
      some { cache := "", key := "", ttl := cache_ttl_marshal 0,
             body := Json.obj [], query := [], headers := [] } ∧
    ((0 : Int) < 0 → cache_ttl_marshal 0 = none ∧
      (ttl_outbound_field (cache_ttl_marshal 0)).lookup "ttl" = none) ∧
    ((0 : Int) ≤ 0 → cache_ttl_marshal 0 = some 0 ∧
      (ttl_outbound_field (cache_ttl_marshal 0)).lookup "ttl" =
        some (Json.num 0)) := by
  exact C7_ttl_convention { authToken := "", authRecord := Json.null }
    none none 0 true true (fun _ => .ok Json.null) (fun _ => .ok Json.null)

/-- C8: for the list entry points taking numeric page / per_page
parameters, a value of 0 or less leaves the corresponding key out of the
outbound query and a positive value sends it: proved directly for
`bosbase_vector_list` and `bosbase_llm_list` which build the query in the
boundary, and through the spec-modelled `getList_outbound_query` for the
page / per_page integers that `bosbase_collection_get_list` and
`bosbase_logs_get_list` pass unchanged to the inner getList. -/
theorem C8_paging_convention (impl : BosBaseImpl) (collection : Option String)
    (page per_page : Int) (oj oe : Bool)
    (innerV innerL : ListSendArgs → InnerOutcome Json)
    (innerLog : LogsListArgs → InnerOutcome Json)
    (innerCol : GetListArgs → InnerOutcome Json) :
    (bosbase_vector_list (some { impl := some impl }) collection page
        per_page .omitted .omitted oj oe innerV).invoked =
      some { collection := collection.getD "",
             query := list_page_query page per_page [], headers := [] } ∧
    (bosbase_llm_list (some { impl := some impl }) collection page per_page
        .omitted .omitted oj oe innerL).invoked =
      some { collection := collection.getD "",
             query := list_page_query page per_page [], headers := [] } ∧
    (bosbase_logs_get_list (some { impl := some impl }) page per_page
        .omitted .omitted oj oe innerLog).invoked =
      some { page := page, perPage := per_page, query := [],
             headers := [] } ∧
    (bosbase_collection_get_list (some { impl := some impl }) collection page
        per_page none none none none .omitted .omitted oj oe
        innerCol).invoked =
      some { collection := collection.getD "", page := page,
             perPage := per_page, skipTotal := false, query := [],
             headers := [], filter := none, sort := none, expand := none,
             fields := none } ∧
    (list_page_query page per_page []).lookup "page" =
      (if page > 0 then some (Json.num page) else none) ∧
    (list_page_query page per_page []).lookup "perPage" =
      (if per_page > 0 then some (Json.num per_page) else none) ∧
    (getList_outbound_query page per_page []).lookup "page" =
      (if page > 0 then some (Json.num page) else none) ∧
    (getList_outbound_query page per_page []).lookup "perPage" =
      (if per_page > 0 then some (Json.num per_page) else none) := by
  refine ⟨rfl, rfl, rfl, rfl, ?_, ?_, ?_, ?_⟩ <;>
    simp only [list_page_query, getList_outbound_query, mapSet] <;>
    split_ifs <;> simp_all [List.lookup]

/-- C2: for the entry points taking query_json / headers_json — with a
live handle and a non-null error out-parameter — any such parameter whose
non-empty text fails to parse or parses to a non-object top level makes
the call fail with a locally constructed Error Value of the
`make_error w (-1)` shape (status −1, abort false, no url, no response
body), and the inner operation is never invoked.  Shown for
`bosbase_send` and `bosbase_collection_get_list`; all other entry points
route these parameters through the same `parse_query` / `parse_headers`
helpers inside the same try/catch template. -/
theorem C2_local_parameter_error (impl : BosBaseImpl)
    (path method : Option String)
    (body_json query_json headers_json : CJsonText)
    (hbad : badObjText query_json = true ∨ badObjText headers_json = true)
    (timeout_ms : Int) (files : Option (List bosbase_file_attachment))
    (oj : Bool) (inner : String × SendOptions → InnerOutcome Json)
    (collection filter sort expand fields : Option String)
    (page per_page : Int) (innerL : GetListArgs → InnerOutcome Json) :
    ((bosbase_send (some { impl := some impl }) path method body_json
        query_json headers_json timeout_ms files oj true inner).ret = -1 ∧
     (bosbase_send (some { impl := some impl }) path method body_json
        query_json headers_json timeout_ms files oj true inner).invoked =
       none ∧
     ∃ w, (bosbase_send (some { impl := some impl }) path method body_json
        query_json headers_json timeout_ms files oj true
        inner).written_error = some (make_error w (-1))) ∧
    ((bosbase_collection_get_list (some { impl := some impl }) collection
        page per_page filter sort expand fields query_json headers_json oj
        true innerL).ret = -1 ∧
     (bosbase_collection_get_list (some { impl := some impl }) collection
        page per_page filter sort expand fields query_json headers_json oj
        true innerL).invoked = none ∧
     ∃ w, (bosbase_collection_get_list (some { impl := some impl })
        collection page per_page filter sort expand fields query_json
        headers_json oj true innerL).written_error =
          some (make_error w (-1))) := by
  constructor
  · cases hb : parse_json_or body_json (Json.obj []) with
    | error w =>
      simp [bosbase_send, hb, local_fail]
      exact ⟨w, rfl⟩
    | ok body =>
      cases hq : parse_query query_json with
      | error w =>
        simp [bosbase_send, hb, hq, local_fail]
        exact ⟨w, rfl⟩
      | ok query =>
        cases hh : parse_headers headers_json with
        | error w =>
          simp [bosbase_send, hb, hq, hh, local_fail]
          exact ⟨w, rfl⟩
        | ok headers =>
          rcases hbad with h | h
          · obtain ⟨w, hw⟩ := parse_query_of_bad h
            rw [hw] at hq
            cases hq
          · obtain ⟨w, hw⟩ := parse_headers_of_bad h
            rw [hw] at hh
            cases hh
  · cases hq : parse_query query_json with
    | error w =>
      simp [bosbase_collection_get_list, hq, local_fail]
      exact ⟨w, rfl⟩
    | ok query =>
      cases hh : parse_headers headers_json with
      | error w =>
        simp [bosbase_collection_get_list, hq, hh, local_fail]
        exact ⟨w, rfl⟩
      | ok headers =>
        rcases hbad with h | h
        · obtain ⟨w, hw⟩ := parse_query_of_bad h
          rw [hw] at hq
          cases hq
        · obtain ⟨w, hw⟩ := parse_headers_of_bad h
          rw [hw] at hh
          cases hh

/-- Witness for C2: unparseable non-empty query text against a live
client; both entry points fail locally with a status −1 error and never
reach the inner operation. -/
theorem C2_local_parameter_error_witness :
    ((bosbase_send
        (some { impl := some { authToken := "", authRecord := Json.null } })
        none none .omitted .invalid .omitted 0 none true true
        (fun _ => .ok Json.null)).ret = -1 ∧
     (bosbase_send
        (some { impl := some { authToken := "", authRecord := Json.null } })
        none none .omitted .invalid .omitted 0 none true true
        (fun _ => .ok Json.null)).invoked = none ∧
     ∃ w, (bosbase_send
        (some { impl := some { authToken := "", authRecord := Json.null } })
        none none .omitted .invalid .omitted 0 none true true
        (fun _ => .ok Json.null)).written_error =
          some (make_error w (-1))) ∧
    ((bosbase_collection_get_list
        (some { impl := some { authToken := "", authRecord := Json.null } })
        none 0 0 none none none none .invalid .omitted true true
        (fun _ => .ok Json.null)).ret = -1 ∧
     (bosbase_collection_get_list
        (some { impl := some { authToken := "", authRecord := Json.null } })
        none 0 0 none none none none .invalid .omitted true true
        (fun _ => .ok Json.null)).invoked = none ∧
     ∃ w, (bosbase_collection_get_list
        (some { impl := some { authToken := "", authRecord := Json.null } })
        none 0 0 none none none none .invalid .omitted true true
        (fun _ => .ok Json.null)).written_error =
          some (make_error w (-1))) := by
  exact C2_local_parameter_error { authToken := "", authRecord := Json.null }
    none none .omitted .invalid .omitted (Or.inl rfl) 0 none true
    (fun _ => .ok Json.null) none none none none none 0 0
    (fun _ => .ok Json.null)

/-- C4 counterexample: the text returned by `bosbase_auth_token` on a live
client is a pointer into the internal storage of the auth store
(`token().c_str()`), not a caller-owned Boundary String — refuting the
claim that every textual output, in particular this one, is a fresh
caller-released heap allocation. -/
theorem C4_counterexample_auth_token_borrowed :
    (bosbase_auth_token
      (some { impl := some { authToken := "tok123",
                             authRecord := Json.null } })).isBoundaryString =
      false := rfl

/-- C4 (amended): every textual output except the one returned by
`bosbase_auth_token` is a caller-owned Boundary String — shown for
`bosbase_auth_record` and for the serialized documents written through the
common wrapper — while `bosbase_auth_token` returns a borrowed pointer
(into the auth store, or the literal empty string) that the caller must
not release. -/
theorem C4_amended_boundary_strings (client : Option bosbase_client)
    (impl : BosBaseImpl) (fn : InnerOutcome Json) (oj oe : Bool)
    (s out : COutString) :
    (bosbase_auth_record client = some s → s.isBoundaryString = true) ∧
    ((wrap_json fn oj oe).written_json = some out →
      out.isBoundaryString = true) ∧
    (bosbase_auth_token (some { impl := some impl })).isBoundaryString =
      false ∧
    (bosbase_auth_token client).isBoundaryString = false := by
  refine ⟨?_, ?_, rfl, ?_⟩
  · rcases client with _ | ⟨_ | impl2⟩ <;>
      intro h <;>
      simp [bosbase_auth_record] at h
    rw [← h]
    rfl
  · cases fn with
    | ok v =>
      cases oj <;> intro h <;> simp [wrap_json] at h
      rw [← h]
      rfl
    | errResponse ex => intro h; simp [wrap_json] at h
    | errGeneric w => intro h; simp [wrap_json] at h
  · rcases client with _ | ⟨_ | impl2⟩ <;> rfl

/-- Witness for C4 (amended) at a live client whose auth record
serializes through the wrapper. -/
theorem C4_amended_boundary_strings_witness :
    (bosbase_auth_record
        (some { impl := some { authToken := "t", authRecord := Json.null } }) =
       some (COutString.owned "null") →
      (COutString.owned "null").isBoundaryString = true) ∧
    ((wrap_json (.ok Json.null) true true).written_json =
        some (COutString.owned "null") →
      (COutString.owned "null").isBoundaryString = true) ∧
    (bosbase_auth_token
      (some { impl := some { authToken := "t",
                             authRecord := Json.null } })).isBoundaryString =
      false ∧
    (bosbase_auth_token
      (some { impl := some { authToken := "t",
                             authRecord := Json.null } })).isBoundaryString =
      false := by
  exact C4_amended_boundary_strings
    (some { impl := some { authToken := "t", authRecord := Json.null } })
    { authToken := "t", authRecord := Json.null } (.ok Json.null) true true
    (COutString.owned "null") (COutString.owned "null")

end BosbaseC
